/-
Verification of the behaviors of `src/main.js` (browser UI glue code for a
marketing site: scroll-aware navbar, mobile menu, accordion, counters,
viewport-height fix).  The DOM state touched by each feature is embedded as a
Lean structure; each event handler becomes a pure state-transition function
translated line by line from the source.
-/
import Mathlib

set_option maxHeartbeats 1000000

/-! ## DOM classList model

`classList.add` appends a token when absent; `classList.remove` deletes every
occurrence.  Multi-token calls apply the single-token operation left to right. -/

def addClass (cs : List String) (c : String) : List String :=
  if c ∈ cs then cs else cs ++ [c]

def removeClass (cs : List String) (c : String) : List String :=
  cs.filter (fun x => x ≠ c)

def addClasses (cs : List String) (l : List String) : List String :=
  l.foldl addClass cs

def removeClasses (cs : List String) (l : List String) : List String :=
  l.foldl removeClass cs

/-! ## Navigation bar (`initNavigation` / `updateNav` / `requestTick`)

The closure state of `initNavigation`: the `#navbar` element's class list, the
`isScrolled` and `ticking` flags, the number of `requestAnimationFrame`
callbacks currently scheduled, and the captured (never used after the guard)
`#main-header` element. -/

def pillClasses : List String :=
  ["w-[90%]", "md:w-full", "max-w-2xl", "bg-white/90", "backdrop-blur-lg",
   "shadow-lg", "border", "border-slate-200", "rounded-2xl", "py-3"]

def expandedClasses : List String :=
  ["max-w-[92%]", "md:max-w-7xl", "bg-transparent"]

structure NavState where
  classes : List String
  header : Option (List String)
  isScrolled : Bool
  ticking : Bool
  pending : Nat
deriving DecidableEq

def updateNav (scrollY : Nat) (s : NavState) : NavState :=
  if 50 < scrollY ∧ s.isScrolled = false then
    { s with isScrolled := true,
             classes := addClasses (removeClasses s.classes expandedClasses) pillClasses,
             ticking := false }
  else if scrollY ≤ 50 ∧ s.isScrolled = true then
    { s with isScrolled := false,
             classes := removeClasses (addClasses s.classes expandedClasses) pillClasses,
             ticking := false }
  else
    { s with ticking := false }

def requestTick (s : NavState) : NavState :=
  if s.ticking = false then
    { s with pending := s.pending + 1, ticking := true }
  else
    s

/-- An animation frame is rendered: if a callback is scheduled it is dequeued
and `updateNav` runs at the current scroll offset. -/
def stepFrame (scrollY : Nat) (s : NavState) : NavState :=
  if 0 < s.pending then updateNav scrollY { s with pending := s.pending - 1 } else s

inductive NavEvent where
  | scroll
  | frame (scrollY : Nat)
deriving DecidableEq

def navStep (e : NavEvent) (s : NavState) : NavState :=
  match e with
  | .scroll => requestTick s
  | .frame y => stepFrame y s

def navRun (es : List NavEvent) (s : NavState) : NavState :=
  es.foldl (fun s e => navStep e s) s

def hasAll (cs l : List String) : Bool :=
  l.all (fun c => decide (c ∈ cs))

def hasNone (cs l : List String) : Bool :=
  l.all (fun c => decide (c ∉ cs))

/-- The navbar shows the "pill" appearance: every pill class present, no
expanded/transparent class present. -/
def pillApplied (cs : List String) : Bool :=
  hasAll cs pillClasses && hasNone cs expandedClasses

/-- The navbar shows the "expanded/transparent" appearance. -/
def expandedApplied (cs : List String) : Bool :=
  hasAll cs expandedClasses && hasNone cs pillClasses

/-- The `isScrolled` flag agrees with the classes actually on the navbar. -/
def NavInv (s : NavState) : Bool :=
  if s.isScrolled then pillApplied s.classes else expandedApplied s.classes

/-- `ticking` is set iff exactly one frame callback is pending, and never more
than one is pending. -/
def TickInv (s : NavState) : Bool :=
  s.pending ≤ 1 && (s.ticking == decide (s.pending = 1))

structure NavInit where
  feature : Option NavState
  warned : Bool
deriving DecidableEq

/-- `initNavigation`: look up `#navbar` and `#main-header`; if either is
missing, warn and return; otherwise install the closure state and run
`updateNav` once on load. -/
def initNavigation (scrollY : Nat) (navbar : Option (List String))
    (mainHeader : Option (List String)) : NavInit :=
  match navbar, mainHeader with
  | some cs, some hdr =>
      { feature := some (updateNav scrollY
          { classes := cs, header := some hdr, isScrolled := false,
            ticking := false, pending := 0 }),
        warned := false }
  | _, _ => { feature := none, warned := true }

/-! ## Mobile menu (`initMobileMenu` / `openMenu` / `closeMenu`)

The closure state of `initMobileMenu` together with the DOM it touches: the
`#mobile-menu` element (inline `display` plus class list), the `#main-header`
inline styles, the body's inline scroll-lock styles, the window scroll offset,
and the number of pending 300 ms hide timers scheduled by `closeMenu`. -/

structure MenuState where
  isOpen : Bool
  scrollPos : Nat
  scrollY : Nat
  menuDisplay : String
  menuClasses : List String
  headerOpacity : String
  headerPointerEvents : String
  bodyPosition : String
  bodyTop : String
  bodyLeft : String
  bodyRight : String
  bodyWidth : String
  hideTimers : Nat
deriving DecidableEq

def openMenu (s : MenuState) : MenuState :=
  { s with
    isOpen := true,
    scrollPos := s.scrollY,
    menuDisplay := "flex",
    menuClasses :=
      addClass (removeClasses s.menuClasses ["opacity-0", "pointer-events-none"])
        "mobile-menu-open",
    headerOpacity := "0",
    headerPointerEvents := "none",
    bodyPosition := "fixed",
    bodyTop := "-" ++ toString s.scrollY ++ "px",
    bodyLeft := "0",
    bodyRight := "0",
    bodyWidth := "100%" }

def closeMenu (s : MenuState) : MenuState :=
  { s with
    isOpen := false,
    menuClasses :=
      removeClass (addClasses s.menuClasses ["opacity-0", "pointer-events-none"])
        "mobile-menu-open",
    hideTimers := s.hideTimers + 1,
    headerOpacity := "1",
    headerPointerEvents := "",
    bodyPosition := "",
    bodyTop := "",
    bodyLeft := "",
    bodyRight := "",
    bodyWidth := "",
    scrollY := s.scrollPos }

/-- One of the 300 ms timers scheduled by `closeMenu` fires: its callback sets
the menu panel's inline `display` to `none` unconditionally (nothing ever
cancels the timer). -/
def fireHideTimer (s : MenuState) : MenuState :=
  if 0 < s.hideTimers then
    { s with menuDisplay := "none", hideTimers := s.hideTimers - 1 }
  else
    s

structure MenuInit where
  feature : Option MenuState
  warned : Bool
deriving DecidableEq

/-- `initMobileMenu`: look up `#menu-btn`, `#main-header` and `#mobile-menu`;
if any is missing, warn and return; otherwise install the closure state
(listeners only, no DOM mutation at init time). -/
def initMobileMenu (menuBtn mainHeader mobileMenu : Bool) (s : MenuState) : MenuInit :=
  if menuBtn && mainHeader && mobileMenu then
    { feature := some s, warned := false }
  else
    { feature := none, warned := true }

/-! ## Viewport height fix (`initViewportFix` / `setVH`) -/

structure ViewportState where
  innerHeight : ℚ
  vhProp : Option String
deriving DecidableEq

def setVH (s : ViewportState) : ViewportState :=
  { s with vhProp := some (toString (s.innerHeight * (0.01 : ℚ)) ++ "px") }

/-- A `resize` or `orientationchange` event: the window's inner height takes
its new value and the registered `setVH` listener runs. -/
def handleVEvent (s : ViewportState) (newHeight : ℚ) : ViewportState :=
  setVH { s with innerHeight := newHeight }

/-- `initViewportFix`: runs `setVH` once and registers it on `resize` and
`orientationchange`; there is no element-presence check. -/
def initViewportFix (s : ViewportState) : ViewportState :=
  setVH s

/-! ## Accordion (`initAccordion` / `window.toggleAccordion`)

A page is a list of `.accordion-item` elements; each may contain an
`.accordion-content` (inline `height` string and layout `scrollHeight`) and an
`.icon-toggle` (class list and `icon` attribute).  `toggleAccordion` is called
with one of the items; DOM identity comparisons (`item !== content` etc.)
become index comparisons. -/

structure AContent where
  height : String
  scrollHeight : Nat
deriving DecidableEq

structure AIcon where
  classes : List String
  iconAttr : String
deriving DecidableEq

structure AItem where
  content : Option AContent
  icon : Option AIcon
  classes : List String
deriving DecidableEq

/-- The "close others" phase applied to a non-target item: zero its content
height, reset its icon classes and attribute, drop the active item classes. -/
def resetOther (it : AItem) : AItem :=
  { content := it.content.map (fun c => { c with height := "0px" }),
    icon := it.icon.map (fun ic =>
      { classes := removeClasses ic.classes ["rotate-45", "text-blue-600"],
        iconAttr := "solar:add-linear" }),
    classes := removeClasses it.classes ["border-blue-500", "shadow-md"] }

/-- The "toggle current" phase: open when the content height is `'0px'` or
unset, close otherwise. -/
def toggleCurrent (it : AItem) : AItem :=
  match it.content with
  | none => it
  | some c =>
      if c.height = "0px" ∨ c.height = "" then
        { content := some { c with height := toString c.scrollHeight ++ "px" },
          icon := it.icon.map (fun ic =>
            { ic with classes := addClasses ic.classes ["rotate-45", "text-blue-600"] }),
          classes := addClasses it.classes ["border-blue-500", "shadow-md"] }
      else
        { content := some { c with height := "0px" },
          icon := it.icon.map (fun ic =>
            { ic with classes := removeClasses ic.classes ["rotate-45", "text-blue-600"] }),
          classes := removeClasses it.classes ["border-blue-500", "shadow-md"] }

def togglePhase : Nat → List AItem → List AItem
  | _, [] => []
  | 0, it :: rest => toggleCurrent it :: rest.map resetOther
  | n + 1, it :: rest => resetOther it :: togglePhase n rest

/-- `window.toggleAccordion` called on the `i`-th accordion item: if that item
has no `.accordion-content` descendant it returns at once, before the
close-others phase; otherwise others are closed and the target is flipped. -/
def toggleAccordion (page : List AItem) (i : Nat) : List AItem :=
  match page[i]?.bind (fun it => it.content) with
  | none => page
  | some _ => togglePhase i page

/-- An item whose content carries a non-zero inline height. -/
def itemOpen (it : AItem) : Bool :=
  match it.content with
  | none => false
  | some c => !(c.height == "0px") && !(c.height == "")

def openCount (page : List AItem) : Nat :=
  (page.filter itemOpen).length

def heightAt (page : List AItem) (j : Nat) : Option String :=
  page[j]?.bind (fun it => it.content.map (fun c => c.height))

structure AccInit where
  toggleInstalled : Bool
  warned : Bool
  page : List AItem
deriving DecidableEq

/-- `initAccordion`: installs `window.toggleAccordion` unconditionally (no
element-presence check, no warning), then after 300 ms auto-opens the first
`.accordion-item` when one exists. -/
def initAccordion (page : List AItem) : AccInit :=
  { toggleInstalled := true,
    warned := false,
    page := match page with
            | [] => page
            | _ :: _ => toggleAccordion page 0 }

/-! ## Counter animation (`initAnimations`, `.counter` elements)

The source reads `parseInt(counter.getAttribute('data-target') || '0', 10)` and
configures a tween of `{value: 0}` to the target with `ease: "power2.out"`,
`scrollTrigger: {start: "top 85%", once: true}` and an `onUpdate` writing
`Math.round(obj.value)` to the element's text. -/

/-- `getAttribute(...) || '0'`: a missing attribute (`null`) and the empty
string are both falsy and default to `'0'`. -/
def jsOrDefaultZero (attr : Option String) : String :=
  match attr with
  | none => "0"
  | some s => if s = "" then "0" else s

/-- Decimal value of a digit character. -/
def digitVal (c : Char) : Nat :=
  c.toNat - 48

/-- Value of a non-empty all-digit character list, most significant first. -/
def digitsToNat? (l : List Char) : Option Nat :=
  if l.isEmpty then none
  else if l.all (fun c => c.isDigit) then
    some (l.foldl (fun a c => a * 10 + digitVal c) 0)
  else none

/-- Model of JavaScript `parseInt(s, 10)` on the well-formed inputs the page
uses: an optional minus sign followed by decimal digits; anything else is
`NaN`, modelled as `none`. -/
def parseIntJS (s : String) : Option Int :=
  match s.data with
  | [] => none
  | c :: rest =>
      if c = '-' then (digitsToNat? rest).map (fun n => -(n : Int))
      else (digitsToNat? (c :: rest)).map (fun n => (n : Int))

/-- The tween target of one `.counter` element. -/
def counterTarget (attr : Option String) : Option Int :=
  parseIntJS (jsOrDefaultZero attr)

/-- Modelled from the spec: the animation library's `power2.out` easing, a
monotone curve from 0 at progress 0 to 1 at progress 1 (the library itself is
an external collaborator, not part of this repository's source). -/
def easePower2Out (p : ℚ) : ℚ :=
  1 - (1 - p) ^ 2

/-- Modelled from the spec: the tweened `obj.value` at animation progress `p`,
interpolated from 0 to `target` along the easing curve. -/
def tweenValue (target : Int) (p : ℚ) : ℚ :=
  (target : ℚ) * easePower2Out p

/-- JavaScript `Math.round` on the (non-negative) values the counter produces:
floor of `x + 1/2`. -/
def jsRound (x : ℚ) : Int :=
  ⌊x + 1 / 2⌋

/-- The integer written to the counter's text at animation progress `p`. -/
def counterDisplay (target : Int) (p : ℚ) : Int :=
  jsRound (tweenValue target p)

structure ScrollTriggerConfig where
  start : String
  once : Bool
deriving DecidableEq

/-- The `scrollTrigger` configuration the source passes for counters. -/
def counterTrigger : ScrollTriggerConfig :=
  { start := "top 85%", once := true }

/-- Modelled from the spec: how many times a scroll trigger starts its
animation after `crossings` crossings of its start line — a `once: true`
trigger fires only on the first crossing. -/
def triggerStarts (cfg : ScrollTriggerConfig) (crossings : Nat) : Nat :=
  if cfg.once then min crossings 1 else crossings

/-! ## Class-list lemmas -/

theorem mem_addClass {cs : List String} {c d : String} :
    c ∈ addClass cs d ↔ c ∈ cs ∨ c = d := by
  unfold addClass
  split
  · constructor
    · exact Or.inl
    · rintro (h' | rfl)
      · exact h'
      · assumption
  · simp

theorem mem_addClasses {c : String} :
    ∀ (l cs : List String), c ∈ addClasses cs l ↔ c ∈ cs ∨ c ∈ l := by
  intro l
  induction l with
  | nil => intro cs; simp [addClasses]
  | cons d l ih =>
      intro cs
      show c ∈ addClasses (addClass cs d) l ↔ _
      rw [ih, mem_addClass]
      simp
      tauto

theorem mem_removeClass {cs : List String} {c d : String} :
    c ∈ removeClass cs d ↔ c ∈ cs ∧ c ≠ d := by
  unfold removeClass
  simp

theorem mem_removeClasses {c : String} :
    ∀ (l cs : List String), c ∈ removeClasses cs l ↔ c ∈ cs ∧ c ∉ l := by
  intro l
  induction l with
  | nil => intro cs; simp [removeClasses]
  | cons d l ih =>
      intro cs
      show c ∈ removeClasses (removeClass cs d) l ↔ _
      rw [ih, mem_removeClass]
      simp
      tauto

/-! ## Navigation lemmas -/

theorem pill_expanded_disjoint : ∀ c ∈ expandedClasses, c ∉ pillClasses := by
  decide

theorem pillApplied_swap (cs : List String) :
    pillApplied (addClasses (removeClasses cs expandedClasses) pillClasses) = true := by
  unfold pillApplied hasAll hasNone
  rw [Bool.and_eq_true, List.all_eq_true, List.all_eq_true]
  constructor
  · intro c hc
    rw [decide_eq_true_iff, mem_addClasses]
    exact Or.inr hc
  · intro c hc
    rw [decide_eq_true_iff, mem_addClasses, mem_removeClasses]
    rintro (⟨_, hmem⟩ | hpill)
    · exact hmem hc
    · exact pill_expanded_disjoint c hc hpill

theorem expandedApplied_swap (cs : List String) :
    expandedApplied (removeClasses (addClasses cs expandedClasses) pillClasses) = true := by
  unfold expandedApplied hasAll hasNone
  rw [Bool.and_eq_true, List.all_eq_true, List.all_eq_true]
  constructor
  · intro c hc
    rw [decide_eq_true_iff, mem_removeClasses, mem_addClasses]
    exact ⟨Or.inr hc, pill_expanded_disjoint c hc⟩
  · intro c hc
    rw [decide_eq_true_iff, mem_removeClasses]
    rintro ⟨_, hmem⟩
    exact hmem hc

theorem updateNav_isScrolled (y : Nat) (s : NavState) :
    (updateNav y s).isScrolled = decide (50 < y) := by
  unfold updateNav
  split_ifs with h1 h2
  · simp [h1.1]
  · have : ¬ 50 < y := by omega
    simp [h2.1, this]
  · by_cases hy : 50 < y
    · cases hsc : s.isScrolled
      · exact absurd ⟨hy, hsc⟩ h1
      · simp [hy, hsc]
    · cases hsc : s.isScrolled
      · simp [hy, hsc]
      · exact absurd ⟨by omega, hsc⟩ h2

theorem updateNav_pending (y : Nat) (s : NavState) :
    (updateNav y s).pending = s.pending := by
  unfold updateNav
  split_ifs <;> rfl

theorem updateNav_header (y : Nat) (s : NavState) :
    (updateNav y s).header = s.header := by
  unfold updateNav
  split_ifs <;> rfl

theorem updateNav_ticking (y : Nat) (s : NavState) :
    (updateNav y s).ticking = false := by
  unfold updateNav
  split_ifs <;> rfl

theorem updateNav_pill (y : Nat) (s : NavState) (hInv : NavInv s = true) (hy : 50 < y) :
    pillApplied (updateNav y s).classes = true := by
  unfold updateNav
  split_ifs with h1 h2 <;> dsimp only
  · exact pillApplied_swap s.classes
  · omega
  · have hsc : s.isScrolled = true := by
      cases hsc : s.isScrolled
      · exact absurd ⟨hy, hsc⟩ h1
      · rfl
    unfold NavInv at hInv
    rw [hsc] at hInv
    exact hInv

theorem updateNav_expanded (y : Nat) (s : NavState) (hInv : NavInv s = true) (hy : y ≤ 50) :
    expandedApplied (updateNav y s).classes = true := by
  unfold updateNav
  split_ifs with h1 h2 <;> dsimp only
  · omega
  · exact expandedApplied_swap s.classes
  · have hsc : s.isScrolled = false := by
      cases hsc : s.isScrolled
      · rfl
      · exact absurd ⟨hy, hsc⟩ h2
    unfold NavInv at hInv
    rw [hsc] at hInv
    exact hInv

theorem updateNav_classes_stable (y y' : Nat) (s : NavState) (h : 50 < y ↔ 50 < y') :
    (updateNav y' (updateNav y s)).classes = (updateNav y s).classes := by
  have hsc := updateNav_isScrolled y s
  generalize ht : updateNav y s = t at hsc ⊢
  unfold updateNav
  split_ifs with h1 h2
  · rw [hsc] at h1
    have := h1.2
    simp at this
    omega
  · rw [hsc] at h2
    have := h2.2
    simp at this
    omega
  · rfl

theorem requestTick_TickInv (s : NavState) (h : TickInv s = true) :
    TickInv (requestTick s) = true := by
  unfold requestTick
  split_ifs with ht
  · unfold TickInv at h ⊢
    dsimp only
    simp only [Bool.and_eq_true, decide_eq_true_eq, beq_iff_eq] at h
    have h2 := h.2
    rw [ht] at h2
    have hne : s.pending ≠ 1 := by
      intro hh
      simp [hh] at h2
    have hp0 : s.pending = 0 := by omega
    rw [hp0]
    decide
  · exact h

theorem stepFrame_TickInv (y : Nat) (s : NavState) (h : TickInv s = true) :
    TickInv (stepFrame y s) = true := by
  unfold stepFrame
  split_ifs with hp
  · unfold TickInv
    rw [updateNav_pending, updateNav_ticking]
    dsimp only
    unfold TickInv at h
    simp only [Bool.and_eq_true, decide_eq_true_eq, beq_iff_eq] at h
    have hp1 : s.pending - 1 = 0 := by omega
    rw [hp1]
    decide
  · exact h

theorem navStep_TickInv (e : NavEvent) (s : NavState) (h : TickInv s = true) :
    TickInv (navStep e s) = true := by
  cases e with
  | scroll => exact requestTick_TickInv s h
  | frame y => exact stepFrame_TickInv y s h

theorem navRun_TickInv (es : List NavEvent) :
    ∀ s : NavState, TickInv s = true → TickInv (navRun es s) = true := by
  induction es with
  | nil => intro s h; exact h
  | cons e es ih =>
      intro s h
      exact ih (navStep e s) (navStep_TickInv e s h)

/-! ## Claim theorems: navigation -/

/-- C2: for every scroll offset strictly above 50 the navbar ends the update
carrying every pill class and no expanded/transparent class; for every offset
at most 50 the reverse; and a repeated update at an offset on the same side of
the threshold changes no classes (the swap only fires on a state change of the
`isScrolled` flag), all starting from any state whose `isScrolled` flag agrees
with its classes. -/
theorem updateNav_threshold (y y' : Nat) (s : NavState) (hInv : NavInv s = true) :
    (50 < y → pillApplied (updateNav y s).classes = true) ∧
    (y ≤ 50 → expandedApplied (updateNav y s).classes = true) ∧
    ((50 < y ↔ 50 < y') →
      (updateNav y' (updateNav y s)).classes = (updateNav y s).classes) :=
  ⟨fun hy => updateNav_pill y s hInv hy,
   fun hy => updateNav_expanded y s hInv hy,
   fun hiff => updateNav_classes_stable y y' s hiff⟩

/-- Witness for C2 at scroll offsets 51 and 60 from the page's initial
navbar state. -/
theorem updateNav_threshold_witness :
    NavInv ⟨expandedClasses, some [], false, false, 0⟩ = true ∧
    ((50 < 51 →
        pillApplied (updateNav 51 ⟨expandedClasses, some [], false, false, 0⟩).classes = true) ∧
     (51 ≤ 50 →
        expandedApplied (updateNav 51 ⟨expandedClasses, some [], false, false, 0⟩).classes = true) ∧
     ((50 < 51 ↔ 50 < 60) →
        (updateNav 60 (updateNav 51 ⟨expandedClasses, some [], false, false, 0⟩)).classes =
          (updateNav 51 ⟨expandedClasses, some [], false, false, 0⟩).classes)) :=
  ⟨by decide, updateNav_threshold 51 60 ⟨expandedClasses, some [], false, false, 0⟩ (by decide)⟩

/-- C7: across any sequence of scroll events and animation frames, at most one
`updateNav` callback is ever pending; a scroll event arriving while `ticking`
is set schedules nothing (it leaves the state untouched); and the flag is
cleared exactly by the frame callback running `updateNav`. -/
theorem requestTick_throttle (es : List NavEvent) (y : Nat) (s : NavState)
    (hInv : TickInv s = true) :
    (navRun es s).pending ≤ 1 ∧
    TickInv (navRun es s) = true ∧
    (s.ticking = true → requestTick s = s) ∧
    (0 < s.pending → (stepFrame y s).ticking = false) := by
  have hrun := navRun_TickInv es s hInv
  refine ⟨?_, hrun, ?_, ?_⟩
  · unfold TickInv at hrun
    simp only [Bool.and_eq_true, decide_eq_true_eq] at hrun
    exact hrun.1
  · intro ht
    unfold requestTick
    rw [ht]
    simp
  · intro hp
    unfold stepFrame
    rw [if_pos hp]
    exact updateNav_ticking y _

/-- Witness for C7 on the event sequence scroll, scroll, frame, scroll from
the initial navigation state. -/
theorem requestTick_throttle_witness :
    TickInv ⟨expandedClasses, some [], false, false, 0⟩ = true ∧
    ((navRun [NavEvent.scroll, NavEvent.scroll, NavEvent.frame 100, NavEvent.scroll]
        ⟨expandedClasses, some [], false, false, 0⟩).pending ≤ 1 ∧
     TickInv (navRun [NavEvent.scroll, NavEvent.scroll, NavEvent.frame 100, NavEvent.scroll]
        ⟨expandedClasses, some [], false, false, 0⟩) = true ∧
     ((⟨expandedClasses, some [], false, false, 0⟩ : NavState).ticking = true →
        requestTick ⟨expandedClasses, some [], false, false, 0⟩ =
          ⟨expandedClasses, some [], false, false, 0⟩) ∧
     (0 < (⟨expandedClasses, some [], false, false, 0⟩ : NavState).pending →
        (stepFrame 100 ⟨expandedClasses, some [], false, false, 0⟩).ticking = false)) :=
  ⟨by decide,
   requestTick_throttle [NavEvent.scroll, NavEvent.scroll, NavEvent.frame 100, NavEvent.scroll]
     100 ⟨expandedClasses, some [], false, false, 0⟩ (by decide)⟩

/-- C10: `initNavigation` warns and disables the whole feature when
`#main-header` is absent even though `#navbar` is present, while the scroll
update `updateNav` neither reads nor mutates the header: its result on the
navbar classes and flag is the same under any header, and the header field is
left untouched. -/
theorem initNavigation_requires_header (y : Nat) (cs : List String) (s : NavState)
    (h h' : Option (List String)) :
    (initNavigation y (some cs) none).warned = true ∧
    (initNavigation y (some cs) none).feature = none ∧
    (updateNav y s).header = s.header ∧
    (updateNav y { s with header := h }).classes =
      (updateNav y { s with header := h' }).classes ∧
    (updateNav y { s with header := h }).isScrolled =
      (updateNav y { s with header := h' }).isScrolled := by
  refine ⟨rfl, rfl, updateNav_header y s, ?_, ?_⟩ <;>
    · unfold updateNav
      dsimp only
      split_ifs <;> rfl

/-! ## Claim theorems: initializers and fault isolation -/

/-- C4 counterexample: with no accordion elements on the page at all,
`initAccordion` logs no warning and still performs the side effect of
installing `window.toggleAccordion`, refuting the claim that every feature
initializer warns and returns without side effects when its elements are
missing. -/
theorem initAccordion_missing_no_warning :
    (initAccordion []).warned = false ∧ (initAccordion []).toggleInstalled = true := by
  decide

/-- C4 (amended): the navigation and mobile-menu initializers check their
required elements and, when any is missing, log a warning and install nothing;
the accordion initializer performs no such check and never warns — it always
installs the global toggle and only silently skips its auto-open on a page
with no accordion item; the viewport-fix initializer has no required elements
and always publishes the property.  All four are total functions of the page
state, so none throws. -/
theorem init_fault_isolation (y : Nat) (cs hdr : List String) (b b' : Bool)
    (m : MenuState) (page : List AItem) (v : ViewportState) :
    (initNavigation y none (some hdr)).warned = true ∧
    (initNavigation y none (some hdr)).feature = none ∧
    (initNavigation y (some cs) none).feature = none ∧
    (initMobileMenu false b b' m).warned = true ∧
    (initMobileMenu false b b' m).feature = none ∧
    (initMobileMenu b false b' m).warned = true ∧
    (initMobileMenu b false b' m).feature = none ∧
    (initMobileMenu b b' false m).warned = true ∧
    (initMobileMenu b b' false m).feature = none ∧
    (initAccordion page).warned = false ∧
    (initAccordion page).toggleInstalled = true ∧
    (initAccordion []).page = [] ∧
    (initViewportFix v).vhProp = some (toString (v.innerHeight * (0.01 : ℚ)) ++ "px") := by
  refine ⟨rfl, rfl, rfl, ?_, ?_, ?_, ?_, ?_, ?_, rfl, rfl, rfl, rfl⟩ <;>
    simp [initMobileMenu]

/-! ## Claim theorems: mobile menu -/

/-- C3: from any state whose body carries no inline scroll-lock styles, while
the menu is open the body is `position: fixed` offset by the negative of the
scroll offset recorded at open time, and closing restores all five inline body
styles to their pre-open (empty) values and the scroll position to exactly the
recorded offset. -/
theorem menu_open_close_restores (s : MenuState)
    (hbody : s.bodyPosition = "" ∧ s.bodyTop = "" ∧ s.bodyLeft = "" ∧
             s.bodyRight = "" ∧ s.bodyWidth = "") :
    (openMenu s).bodyPosition = "fixed" ∧
    (openMenu s).scrollPos = s.scrollY ∧
    (openMenu s).bodyTop = "-" ++ toString (openMenu s).scrollPos ++ "px" ∧
    (closeMenu (openMenu s)).bodyPosition = s.bodyPosition ∧
    (closeMenu (openMenu s)).bodyTop = s.bodyTop ∧
    (closeMenu (openMenu s)).bodyLeft = s.bodyLeft ∧
    (closeMenu (openMenu s)).bodyRight = s.bodyRight ∧
    (closeMenu (openMenu s)).bodyWidth = s.bodyWidth ∧
    (closeMenu (openMenu s)).scrollY = s.scrollY := by
  obtain ⟨h1, h2, h3, h4, h5⟩ := hbody
  refine ⟨rfl, rfl, rfl, ?_, ?_, ?_, ?_, ?_, rfl⟩ <;>
    simp [closeMenu, openMenu, h1, h2, h3, h4, h5]

/-- Witness for C3 from a closed menu at scroll offset 120 with an unstyled
body. -/
theorem menu_open_close_restores_witness :
    ((⟨false, 0, 120, "none", ["opacity-0", "pointer-events-none"], "1", "",
       "", "", "", "", "", 0⟩ : MenuState).bodyPosition = "" ∧
     (⟨false, 0, 120, "none", ["opacity-0", "pointer-events-none"], "1", "",
       "", "", "", "", "", 0⟩ : MenuState).bodyTop = "" ∧
     (⟨false, 0, 120, "none", ["opacity-0", "pointer-events-none"], "1", "",
       "", "", "", "", "", 0⟩ : MenuState).bodyLeft = "" ∧
     (⟨false, 0, 120, "none", ["opacity-0", "pointer-events-none"], "1", "",
       "", "", "", "", "", 0⟩ : MenuState).bodyRight = "" ∧
     (⟨false, 0, 120, "none", ["opacity-0", "pointer-events-none"], "1", "",
       "", "", "", "", "", 0⟩ : MenuState).bodyWidth = "") ∧
    ((openMenu ⟨false, 0, 120, "none", ["opacity-0", "pointer-events-none"], "1", "",
       "", "", "", "", "", 0⟩).bodyPosition = "fixed" ∧
     (openMenu ⟨false, 0, 120, "none", ["opacity-0", "pointer-events-none"], "1", "",
       "", "", "", "", "", 0⟩).scrollPos =
       (⟨false, 0, 120, "none", ["opacity-0", "pointer-events-none"], "1", "",
         "", "", "", "", "", 0⟩ : MenuState).scrollY ∧
     (openMenu ⟨false, 0, 120, "none", ["opacity-0", "pointer-events-none"], "1", "",
       "", "", "", "", "", 0⟩).bodyTop =
       "-" ++ toString (openMenu ⟨false, 0, 120, "none",
         ["opacity-0", "pointer-events-none"], "1", "", "", "", "", "", "", 0⟩).scrollPos
         ++ "px" ∧
     (closeMenu (openMenu ⟨false, 0, 120, "none", ["opacity-0", "pointer-events-none"],
       "1", "", "", "", "", "", "", 0⟩)).bodyPosition = "" ∧
     (closeMenu (openMenu ⟨false, 0, 120, "none", ["opacity-0", "pointer-events-none"],
       "1", "", "", "", "", "", "", 0⟩)).bodyTop = "" ∧
     (closeMenu (openMenu ⟨false, 0, 120, "none", ["opacity-0", "pointer-events-none"],
       "1", "", "", "", "", "", "", 0⟩)).bodyLeft = "" ∧
     (closeMenu (openMenu ⟨false, 0, 120, "none", ["opacity-0", "pointer-events-none"],
       "1", "", "", "", "", "", "", 0⟩)).bodyRight = "" ∧
     (closeMenu (openMenu ⟨false, 0, 120, "none", ["opacity-0", "pointer-events-none"],
       "1", "", "", "", "", "", "", 0⟩)).bodyWidth = "" ∧
     (closeMenu (openMenu ⟨false, 0, 120, "none", ["opacity-0", "pointer-events-none"],
       "1", "", "", "", "", "", "", 0⟩)).scrollY = 120) :=
  ⟨by decide,
   menu_open_close_restores
     ⟨false, 0, 120, "none", ["opacity-0", "pointer-events-none"], "1", "",
      "", "", "", "", "", 0⟩ (by decide)⟩

/-- C8: closing the menu and reopening it before the 300 ms hide timer fires
leaves the state logically open — `isOpen` true, open classes applied, header
hidden, body scroll locked — yet the stale timer still sets the panel's
`display` to `none`, so the open menu is not rendered. -/
theorem menu_close_reopen_stale_timer (s : MenuState) :
    (fireHideTimer (openMenu (closeMenu s))).isOpen = true ∧
    (fireHideTimer (openMenu (closeMenu s))).menuDisplay = "none" ∧
    "mobile-menu-open" ∈ (fireHideTimer (openMenu (closeMenu s))).menuClasses ∧
    "opacity-0" ∉ (fireHideTimer (openMenu (closeMenu s))).menuClasses ∧
    "pointer-events-none" ∉ (fireHideTimer (openMenu (closeMenu s))).menuClasses ∧
    (fireHideTimer (openMenu (closeMenu s))).headerOpacity = "0" ∧
    (fireHideTimer (openMenu (closeMenu s))).headerPointerEvents = "none" ∧
    (fireHideTimer (openMenu (closeMenu s))).bodyPosition = "fixed" := by
  have h0 : 0 < (openMenu (closeMenu s)).hideTimers := by
    simp [openMenu, closeMenu]
  unfold fireHideTimer
  rw [if_pos h0]
  dsimp only
  refine ⟨rfl, rfl, ?_, ?_, ?_, rfl, rfl, rfl⟩
  · show "mobile-menu-open" ∈ addClass (removeClasses (closeMenu s).menuClasses
      ["opacity-0", "pointer-events-none"]) "mobile-menu-open"
    exact mem_addClass.mpr (Or.inr rfl)
  · show "opacity-0" ∉ addClass (removeClasses (closeMenu s).menuClasses
      ["opacity-0", "pointer-events-none"]) "mobile-menu-open"
    rw [mem_addClass, mem_removeClasses]
    rintro (⟨_, hmem⟩ | heq)
    · exact hmem (by decide)
    · exact absurd heq (by decide)
  · show "pointer-events-none" ∉ addClass (removeClasses (closeMenu s).menuClasses
      ["opacity-0", "pointer-events-none"]) "mobile-menu-open"
    rw [mem_addClass, mem_removeClasses]
    rintro (⟨_, hmem⟩ | heq)
    · exact hmem (by decide)
    · exact absurd heq (by decide)

/-! ## Accordion lemmas -/

theorem itemOpen_resetOther (it : AItem) : itemOpen (resetOther it) = false := by
  unfold itemOpen resetOther
  cases it.content <;> simp

theorem filter_map_resetOther (l : List AItem) :
    (l.map resetOther).filter itemOpen = [] := by
  induction l with
  | nil => rfl
  | cons a l ih => simp [List.filter_cons, itemOpen_resetOther, ih]

theorem openCount_togglePhase : ∀ (i : Nat) (page : List AItem),
    openCount (togglePhase i page) ≤ 1 := by
  intro i page
  induction page generalizing i with
  | nil =>
      show openCount (togglePhase i []) ≤ 1
      cases i <;> exact Nat.zero_le 1
  | cons it rest ih =>
      cases i with
      | zero =>
          show openCount (toggleCurrent it :: rest.map resetOther) ≤ 1
          unfold openCount
          rw [List.filter_cons]
          split
          · simp [filter_map_resetOther]
          · simp [filter_map_resetOther]
      | succ n =>
          show openCount (resetOther it :: togglePhase n rest) ≤ 1
          unfold openCount
          rw [List.filter_cons, if_neg (by simp [itemOpen_resetOther])]
          exact ih n

theorem togglePhase_getElem? : ∀ (i j : Nat) (page : List AItem),
    (togglePhase i page)[j]? =
      page[j]?.map (fun it => if j = i then toggleCurrent it else resetOther it) := by
  intro i j page
  induction page generalizing i j with
  | nil => cases i <;> simp [togglePhase]
  | cons it rest ih =>
      cases i with
      | zero =>
          cases j with
          | zero => simp [togglePhase]
          | succ k =>
              simp only [togglePhase, List.getElem?_cons_succ, List.getElem?_map]
              cases h : rest[k]? <;> simp [h]
      | succ n =>
          cases j with
          | zero => simp [togglePhase]
          | succ k =>
              simp only [togglePhase, List.getElem?_cons_succ]
              rw [ih n k]
              cases h : rest[k]? <;> simp [h, Nat.succ_inj]

/-! ## Claim theorems: accordion -/

/-- C1: a `toggleAccordion` call on an item that has an
`.accordion-content` leaves at most one content with a non-zero inline height:
every other content's height is set to `'0px'` in the same call, and a target
whose content height was already non-zero is collapsed to `'0px'`. -/
theorem toggleAccordion_single_open (page : List AItem) (i : Nat) (c : AContent)
    (hc : page[i]?.bind (fun it => it.content) = some c) :
    openCount (toggleAccordion page i) ≤ 1 ∧
    (∀ j, j ≠ i → ∀ h, heightAt (toggleAccordion page i) j = some h → h = "0px") ∧
    (¬ (c.height = "0px" ∨ c.height = "") →
      heightAt (toggleAccordion page i) i = some "0px") := by
  have htog : toggleAccordion page i = togglePhase i page := by
    unfold toggleAccordion
    rw [hc]
  rw [htog]
  refine ⟨openCount_togglePhase i page, ?_, ?_⟩
  · intro j hj h hh
    unfold heightAt at hh
    rw [togglePhase_getElem? i j page] at hh
    cases hg : page[j]? with
    | none => rw [hg] at hh; simp at hh
    | some it =>
        rw [hg] at hh
        simp only [Option.map_some'] at hh
        rw [Option.some_bind, if_neg hj] at hh
        unfold resetOther at hh
        simp at hh
        exact hh.2.symm
  · intro hcl
    obtain ⟨it, hgi, hci⟩ : ∃ it, page[i]? = some it ∧ it.content = some c := by
      cases hg : page[i]? with
      | none => rw [hg] at hc; simp at hc
      | some it =>
          rw [hg] at hc
          simp only [Option.some_bind] at hc
          exact ⟨it, rfl, hc⟩
    unfold heightAt
    rw [togglePhase_getElem? i i page, hgi]
    simp only [Option.map_some', Option.some_bind, if_true, eq_self_iff_true]
    unfold toggleCurrent
    rw [hci]
    dsimp only
    rw [if_neg hcl]
    simp

/-- Witness for C1: a two-item page whose second item is open (height
`'80px'`), toggled on the second item. -/
theorem toggleAccordion_single_open_witness :
    ([⟨some ⟨"", 120⟩, some ⟨[], "solar:add-linear"⟩, []⟩,
       ⟨some ⟨"80px", 80⟩, none, []⟩] : List AItem)[1]?.bind
      (fun it => it.content) = some ⟨"80px", 80⟩ ∧
    (openCount (toggleAccordion [⟨some ⟨"", 120⟩, some ⟨[], "solar:add-linear"⟩, []⟩,
       ⟨some ⟨"80px", 80⟩, none, []⟩] 1) ≤ 1 ∧
     (∀ j, j ≠ 1 → ∀ h,
        heightAt (toggleAccordion [⟨some ⟨"", 120⟩, some ⟨[], "solar:add-linear"⟩, []⟩,
          ⟨some ⟨"80px", 80⟩, none, []⟩] 1) j = some h → h = "0px") ∧
     (¬ ((⟨"80px", 80⟩ : AContent).height = "0px" ∨ (⟨"80px", 80⟩ : AContent).height = "") →
        heightAt (toggleAccordion [⟨some ⟨"", 120⟩, some ⟨[], "solar:add-linear"⟩, []⟩,
          ⟨some ⟨"80px", 80⟩, none, []⟩] 1) 1 = some "0px")) :=
  ⟨by decide,
   toggleAccordion_single_open
     [⟨some ⟨"", 120⟩, some ⟨[], "solar:add-linear"⟩, []⟩, ⟨some ⟨"80px", 80⟩, none, []⟩]
     1 ⟨"80px", 80⟩ (by decide)⟩

/-- C9: calling `toggleAccordion` on an element with no `.accordion-content`
descendant returns before the close-others phase: the whole page — every
content height, icon class and attribute, and item class — is unchanged. -/
theorem toggleAccordion_no_content (page : List AItem) (i : Nat)
    (h : page[i]?.bind (fun it => it.content) = none) :
    toggleAccordion page i = page := by
  unfold toggleAccordion
  rw [h]

/-- Witness for C9: a two-item page whose first item lacks a content element,
toggled on that first item, with the second item left open. -/
theorem toggleAccordion_no_content_witness :
    ([⟨none, some ⟨["rotate-45"], "solar:add-linear"⟩, []⟩,
       ⟨some ⟨"80px", 80⟩, none, ["border-blue-500"]⟩] : List AItem)[0]?.bind
      (fun it => it.content) = none ∧
    toggleAccordion [⟨none, some ⟨["rotate-45"], "solar:add-linear"⟩, []⟩,
       ⟨some ⟨"80px", 80⟩, none, ["border-blue-500"]⟩] 0 =
      [⟨none, some ⟨["rotate-45"], "solar:add-linear"⟩, []⟩,
       ⟨some ⟨"80px", 80⟩, none, ["border-blue-500"]⟩] :=
  ⟨by decide,
   toggleAccordion_no_content
     [⟨none, some ⟨["rotate-45"], "solar:add-linear"⟩, []⟩,
      ⟨some ⟨"80px", 80⟩, none, ["border-blue-500"]⟩] 0 (by decide)⟩

/-! ## Claim theorems: viewport fix -/

/-- C6: immediately after the viewport-fix handler runs — at initialization
and after any resize or orientation-change event — the `--vh` property on the
document root equals `window.innerHeight * 0.01` followed by `'px'`. -/
theorem viewport_vh_value (s : ViewportState) (h : ℚ) :
    (initViewportFix s).vhProp =
      some (toString ((initViewportFix s).innerHeight * (0.01 : ℚ)) ++ "px") ∧
    (handleVEvent s h).innerHeight = h ∧
    (handleVEvent s h).vhProp =
      some (toString ((handleVEvent s h).innerHeight * (0.01 : ℚ)) ++ "px") :=
  ⟨rfl, rfl, rfl⟩



/-! ## Claim theorems: counter animation -/

theorem floor_half_eq_zero : ⌊(1 / 2 : ℚ)⌋ = 0 :=
  Int.floor_eq_zero_iff.mpr (Set.mem_Ico.mpr (by norm_num))

/-- C5: a counter's tween target is the integer parsed from its `data-target`
attribute (0 when the attribute is absent); the displayed text is the rounded
tween value at each tick, starts at 0, ends exactly at the target, and is
monotone in the animation progress; and the scroll trigger is configured
`once: true` at `"top 85%"`, so it starts at most one animation no matter how
often the start line is crossed. -/
theorem counter_animation (attr : Option String) (t : Int) (p q : ℚ)
    (ht : counterTarget attr = some t) (h0 : 0 ≤ t)
    (hp : 0 ≤ p) (hpq : p ≤ q) (hq : q ≤ 1) :
    (attr = none → t = 0) ∧
    counterDisplay t 0 = 0 ∧
    counterDisplay t 1 = t ∧
    counterDisplay t p ≤ counterDisplay t q ∧
    counterTrigger.once = true ∧
    counterTrigger.start = "top 85%" ∧
    (∀ crossings : Nat, triggerStarts counterTrigger crossings ≤ 1) := by
  refine ⟨?_, ?_, ?_, ?_, rfl, rfl, ?_⟩
  · intro ha
    subst ha
    have h00 : counterTarget none = some 0 := by decide
    rw [h00] at ht
    exact (Option.some_inj.mp ht).symm
  · show jsRound ((t : ℚ) * easePower2Out 0) = 0
    have he : easePower2Out 0 = 0 := by norm_num [easePower2Out]
    rw [he, mul_zero]
    show ⌊(0 : ℚ) + 1 / 2⌋ = 0
    rw [zero_add]
    exact floor_half_eq_zero
  · show jsRound ((t : ℚ) * easePower2Out 1) = t
    have he : easePower2Out 1 = 1 := by norm_num [easePower2Out]
    rw [he, mul_one]
    show ⌊(t : ℚ) + 1 / 2⌋ = t
    rw [add_comm, Int.floor_add_int, floor_half_eq_zero, zero_add]
  · have he : easePower2Out p ≤ easePower2Out q := by
      unfold easePower2Out
      have h2 : (1 - q) ^ 2 ≤ (1 - p) ^ 2 :=
        pow_le_pow_left₀ (by linarith) (by linarith) 2
      linarith
    have hv : tweenValue t p ≤ tweenValue t q := by
      unfold tweenValue
      apply mul_le_mul_of_nonneg_left he
      exact_mod_cast h0
    unfold counterDisplay jsRound
    exact Int.floor_le_floor (by linarith [hv])
  · intro crossings
    have hmin : triggerStarts counterTrigger crossings = min crossings 1 := rfl
    rw [hmin]
    exact min_le_right crossings 1

/-- Witness for C5 with `data-target="250"` at progress points 1/4 and 1/2. -/
theorem counter_animation_witness :
    counterTarget (some "250") = some 250 ∧ 0 ≤ (250 : Int) ∧
    0 ≤ (1 / 4 : ℚ) ∧ (1 / 4 : ℚ) ≤ 1 / 2 ∧ (1 / 2 : ℚ) ≤ 1 ∧
    ((some "250" = none → (250 : Int) = 0) ∧
     counterDisplay 250 0 = 0 ∧
     counterDisplay 250 1 = 250 ∧
     counterDisplay 250 (1 / 4) ≤ counterDisplay 250 (1 / 2) ∧
     counterTrigger.once = true ∧
     counterTrigger.start = "top 85%" ∧
     (∀ crossings : Nat, triggerStarts counterTrigger crossings ≤ 1)) :=
  ⟨by decide, by norm_num, by norm_num, by norm_num, by norm_num,
   counter_animation (some "250") 250 (1 / 4) (1 / 2) (by decide) (by norm_num)
     (by norm_num) (by norm_num) (by norm_num)⟩
